import Mathlib

/-!
# Verification of the `stubsrv` HTTP stub server

Shallow embedding of the route-matching core of the `stubsrv` Go package
(`matchers.go`, `middleware.go`, `stubsrv.go` — the dispatcher variant) and
proofs of the specification's claims about it.

Strings are modelled with Lean's `String`; the Go `strings` helpers used by
the source (`ToUpper`, `HasPrefix`, `HasSuffix`, `Trim`/`Split` on `"/"`,
`Contains`) are re-implemented below on the character list underlying a
`String`, following Go's semantics (in particular `strings.Split` of the
empty string yields one empty field).
-/

namespace Stubsrv

/-- Go `strings.ToUpper`, restricted to the ASCII characters that occur in
HTTP methods (character-wise upper-casing). -/
def goToUpper (s : String) : String :=
  String.mk (s.data.map Char.toUpper)

/-- Go `strings.HasPrefix s pre`. -/
def hasPrefixB (s pre : String) : Bool :=
  pre.data.isPrefixOf s.data

/-- Go `strings.HasSuffix s suf`. -/
def hasSuffixB (s suf : String) : Bool :=
  suf.data.isSuffixOf s.data

/-- Go `strings.Contains s (string c)` for a one-character separator. -/
def containsChar (s : String) (c : Char) : Bool :=
  s.data.contains c

/-- Go `strings.Trim s "/"`: drop leading and trailing `'/'` characters. -/
def trimSlashes (l : List Char) : List Char :=
  ((l.dropWhile (fun c => c = '/')).reverse.dropWhile (fun c => c = '/')).reverse

/-- Go `strings.Split` on a one-character separator: splitting the empty
list yields one empty field, and `n` separators yield `n+1` fields. -/
def splitChar (sep : Char) : List Char → List (List Char)
  | [] => [[]]
  | c :: cs =>
    match splitChar sep cs with
    | [] => if c = sep then [[], []] else [[c]]
    | r :: rs => if c = sep then [] :: r :: rs else (c :: r) :: rs

/-- `strings.Split(strings.Trim(p, "/"), "/")`, the segment computation used
both by `pathMatch` for the request path and by route registration for the
template path. -/
def splitTrimSlash (p : String) : List String :=
  (splitChar '/' (trimSlashes p.data)).map String.mk

/-- Go `url.Values`: a map from key to the ordered list of values. -/
abbrev Values := List (String × List String)

/-- Go `url.Values.Get`: the first value associated with the key, or the
empty string if the key is absent or has no values. -/
def Values.get (vs : Values) (k : String) : String :=
  match vs.lookup k with
  | none => ""
  | some [] => ""
  | some (v :: _) => v

/-- `pathMatch` from `matchers.go`: split the raw request path into
segments, require equal segment counts, then compare positionally — a
template segment starting with `":"` is skipped (`continue` in the Go
loop), any other template segment must equal the request segment. -/
def pathMatch (tplSegs : List String) (rawPath : String) : Bool :=
  let reqSegs := splitTrimSlash rawPath
  if reqSegs.length != tplSegs.length then false
  else (tplSegs.zip reqSegs).all (fun p => hasPrefixB p.1 ":" || p.1 == p.2)

/-- `queryMatch` from `matchers.go`: an empty constraint map matches
unconditionally; otherwise every constrained key's `Values.Get` must equal
the required value. -/
def queryMatch (tpl : List (String × String)) (urlVals : Values) : Bool :=
  if tpl.isEmpty then true
  else tpl.all (fun kv => Values.get urlVals kv.1 == kv.2)

/-- `chainMiddleware` from `middleware.go` / `stubsrv.go`: the Go loop
`for i := len(mws)-1; i >= 0; i--  { h = mws[i](h) }`, i.e. a right fold
that leaves the first-registered middleware outermost. -/
def chainMiddleware {α : Type} (handler : α) (middlewares : List (α → α)) : α :=
  middlewares.foldr (fun mw h => mw h) handler

/-- A middleware for observing execution order: it appends `before` to the
trace, runs the inner handler if `callsNext` is set (a middleware that does
not invoke its next link skips it), then appends `after`. -/
structure TraceMW where
  before : String
  after : String
  callsNext : Bool

/-- A handler is observed by the trace of events it emits. -/
abbrev Trace := List String

/-- The trace-level meaning of a `TraceMW` as a Go `Middleware`
(`func(http.Handler) http.Handler`). -/
def TraceMW.toMiddleware (m : TraceMW) : Trace → Trace :=
  fun inner => m.before :: ((if m.callsNext then inner else []) ++ [m.after])

/-- `routeInfo` from `stubsrv.go`: a terminal handler plus the ordered
middleware wrappers registered with it. Handlers are abstracted by a type
parameter; middlewares are handler transformers, matching Go's
`func(http.Handler) http.Handler`. -/
structure RouteInfo (α : Type) where
  handler : α
  middlewares : List (α → α)

/-- `templateRoute` from `stubsrv.go`. -/
structure TemplateRoute (α : Type) where
  method : String
  segments : List String
  queries : List (String × String)
  info : RouteInfo α

/-- The route-registry part of the `Stub` struct: the exact-route map
`routers` (`map[string]routeInfo`, keyed by `"METHOD /path"`, modelled as
an association list with `lookup`/insert-or-replace semantics) and the
append-only `templateRoutes` list. -/
structure Registry (α : Type) where
  routers : List (String × RouteInfo α)
  templateRoutes : List (TemplateRoute α)

/-- The parts of an incoming `*http.Request` consulted by `dispatch`:
`r.Method`, `r.URL.Path` and `r.URL.Query()`. -/
structure Request where
  method : String
  path : String
  query : Values

/-- The outcome of `dispatch`: either a composed handler is executed, or a
`405 Method Not Allowed` / `404 Not Found` error response is written. -/
inductive DispatchResult (α : Type) where
  | served (h : α)
  | methodNotAllowed
  | notFound

/-- The per-route condition of the template scan in `dispatch`: the three
`continue` guards (raw method equality, `pathMatch`, `queryMatch`). -/
def templateMatches {α : Type} (r : Request) (tr : TemplateRoute α) : Bool :=
  tr.method == r.method && pathMatch tr.segments r.path && queryMatch tr.queries r.query

/-- `dispatch` from `stubsrv.go`: exact lookup under
`strings.ToUpper(r.Method) + " " + r.URL.Path`; else first templated route
(in insertion order) passing the method/path/query guards; else the
404-vs-405 classification, which scans exact keys for the suffix
`" " + r.URL.Path` and templated routes for a path+query match ignoring
the method. -/
def dispatch {α : Type} (s : Registry α) (r : Request) : DispatchResult α :=
  match s.routers.lookup (goToUpper r.method ++ " " ++ r.path) with
  | some info => .served (chainMiddleware info.handler info.middlewares)
  | none =>
    match s.templateRoutes.find? (templateMatches r) with
    | some tr => .served (chainMiddleware tr.info.handler tr.info.middlewares)
    | none =>
      let methodMismatch :=
        s.routers.any (fun kv => hasSuffixB kv.1 (" " ++ r.path)) ||
        s.templateRoutes.any (fun tr =>
          pathMatch tr.segments r.path && queryMatch tr.queries r.query)
      if methodMismatch then .methodNotAllowed else .notFound

/-- `DynamicHandlerSpec` from `stubsrv.go`, the decoded control-plane
payload (`Query`/`Headers` maps modelled as association lists; absent JSON
fields decode to the zero values `""`, `[]`, `0`). -/
structure DynamicHandlerSpec where
  method : String
  path : String
  query : List (String × String)
  status : Nat
  body : String
  headers : List (String × String)

/-- The response written by the closure `responseHandler` built in
`controlAddHandler`: the spec's headers, status and body. -/
structure StubResponse where
  headers : List (String × String)
  status : Nat
  body : String

/-- The handler registered by `controlAddHandler` for a decoded payload. -/
def responseHandler (spec : DynamicHandlerSpec) : StubResponse :=
  { headers := spec.headers, status := spec.status, body := spec.body }

/-- Go map assignment `m[k] = v`: replace the binding if the key is
present, append it otherwise. -/
def mapInsert {β : Type} (k : String) (v : β) : List (String × β) → List (String × β)
  | [] => [(k, v)]
  | (k', v') :: rest => if k' == k then (k, v) :: rest else (k', v') :: mapInsert k v rest

/-- The HTTP outcome of `controlAddHandler`. -/
inductive ControlResult where
  | notAllowed
  | invalidJSON
  | missingMethodOrPath
  | created
deriving DecidableEq

/-- The status code written for each `ControlResult`. -/
def ControlResult.httpStatus : ControlResult → Nat
  | .notAllowed => 405
  | .invalidJSON => 400
  | .missingMethodOrPath => 400
  | .created => 201

/-- `controlAddHandler` from `stubsrv.go`, with the JSON decoding step (an
external collaborator) abstracted as an `Option DynamicHandlerSpec`
argument (`none` = the body did not decode). Returns the updated registry
and the HTTP outcome: non-POST is refused, a decode failure or an empty
method/path is rejected with 400 before any registry mutation, status `0`
defaults to `200`, and the payload is stored as a templated route when the
path contains `":"` or query constraints are present, as an exact route
otherwise. -/
def controlAddHandler (reg : Registry StubResponse) (reqMethod : String)
    (decoded : Option DynamicHandlerSpec) : Registry StubResponse × ControlResult :=
  if reqMethod != "POST" then (reg, .notAllowed)
  else
    match decoded with
    | none => (reg, .invalidJSON)
    | some spec0 =>
      if spec0.method == "" || spec0.path == "" then (reg, .missingMethodOrPath)
      else
        let spec := if spec0.status == 0 then { spec0 with status := 200 } else spec0
        if containsChar spec.path ':' || decide (0 < spec.query.length) then
          ({ reg with
              templateRoutes := reg.templateRoutes ++
                [{ method := goToUpper spec.method,
                   segments := splitTrimSlash spec.path,
                   queries := spec.query,
                   info := { handler := responseHandler spec, middlewares := [] } }] },
           .created)
        else
          ({ reg with
              routers := mapInsert (goToUpper spec.method ++ " " ++ spec.path)
                { handler := responseHandler spec, middlewares := [] } reg.routers },
           .created)

/-- The lifecycle-relevant fields of the `Stub` struct: whether `s.Server`
is non-nil, the `closed` flag, `s.baseURL`, whether `s.mux` is non-nil,
whether the running `httptest.Server` was handed the stub's mux as its
handler (a nil mux means Go's `http.Server` falls back to
`http.DefaultServeMux`, so none of the stub's routes are served), and how
many times the underlying server's `Close` has been invoked. -/
structure StubState where
  serverStarted : Bool
  closed : Bool
  baseURL : String
  muxPresent : Bool
  servingDispatcher : Bool
  serverCloseCount : Nat
deriving DecidableEq

/-- The state built by `NewStub`: no server, not closed, empty base URL,
and a mux wired with the control endpoint, readiness probe and
dispatcher. -/
def newStubState : StubState :=
  { serverStarted := false, closed := false, baseURL := "",
    muxPresent := true, servingDispatcher := false, serverCloseCount := 0 }

/-- The outcome of `net.Listen` inside `Start`, an external collaborator:
`none` models a bind failure, `some url` a successful bind with the
resulting base URL. -/
inductive StartError where
  | alreadyStarted
  | bindFailure
deriving DecidableEq

/-- `Start` from `stubsrv.go` (dispatcher variant): error if already
started; on bind failure set `s.mux = nil` and return the error; on
success create the `httptest.Server` with the current mux as handler and
record the base URL. -/
def startStub (s : StubState) (bindResult : Option String) : StubState × Option StartError :=
  if s.serverStarted then (s, some .alreadyStarted)
  else
    match bindResult with
    | none => ({ s with muxPresent := false }, some .bindFailure)
    | some url =>
      ({ s with serverStarted := true, baseURL := url,
                servingDispatcher := s.muxPresent }, none)

/-- `Close` from `stubsrv.go`: close the underlying server and set the
flag, only when a server exists and it is not already closed. -/
def closeStub (s : StubState) : StubState :=
  if s.serverStarted && !s.closed then
    { s with closed := true, serverCloseCount := s.serverCloseCount + 1 }
  else s

/-- `URL` from `stubsrv.go`: empty when no server exists or the stub is
closed, the recorded base URL otherwise. -/
def urlStub (s : StubState) : String :=
  if !s.serverStarted || s.closed then "" else s.baseURL

end Stubsrv

namespace Stubsrv

-- Sanity checks of the embedding against the Go unit tests in the repo.

example : pathMatch ["users", "42", "orders"] "/users/42/orders" = true := by decide

example : pathMatch ["users", ":id", "orders", ":orderId"] "/users/99/orders/123" = true := by
  decide

example : pathMatch ["users", "42"] "/accounts/42" = false := by decide

example : pathMatch ["foo", "bar"] "/foo/bar/baz" = false := by decide

example : queryMatch [] [("foo", ["1"])] = true := by decide

example : queryMatch [("status", "shipped")] [("status", ["pending"])] = false := by decide

example : queryMatch [("foo", "1")] [("foo", ["1"]), ("bar", ["2"])] = true := by decide

-- Helper lemmas about the embedding (shared by several claim proofs).

theorem String.data_append (a b : String) : (a ++ b).data = a.data ++ b.data := rfl

theorem hasSuffixB_append (m t : String) : hasSuffixB (m ++ t) t = true := by
  simp only [hasSuffixB, Stubsrv.String.data_append]
  exact List.isSuffixOf_iff_suffix.mpr (List.suffix_append m.data t.data)

theorem values_get_eq_empty_of_lookup_none (Q : Values) (k : String)
    (h : Q.lookup k = none) : Values.get Q k = "" := by
  simp [Values.get, h]

theorem queryMatch_eq_true_iff (C : List (String × String)) (Q : Values) :
    queryMatch C Q = true ↔ ∀ kv ∈ C, Values.get Q kv.1 = kv.2 := by
  cases C with
  | nil => simp [queryMatch]
  | cons kv rest =>
      simp [queryMatch, List.all_eq_true, beq_iff_eq]

theorem chain_all_next (mws : List TraceMW) (h : Trace)
    (hnext : ∀ m ∈ mws, m.callsNext = true) :
    chainMiddleware h (mws.map TraceMW.toMiddleware) =
      mws.map TraceMW.before ++ h ++ (mws.map TraceMW.after).reverse := by
  induction mws with
  | nil => simp [chainMiddleware]
  | cons m rest ih =>
      have hm : m.callsNext = true := hnext m (List.mem_cons_self _ _)
      have hrest : ∀ m' ∈ rest, m'.callsNext = true :=
        fun m' hm' => hnext m' (List.mem_cons_of_mem _ hm')
      simp only [List.map_cons, chainMiddleware, List.foldr_cons]
      have : List.foldr (fun mw h => mw h) h (rest.map TraceMW.toMiddleware) =
          rest.map TraceMW.before ++ h ++ (rest.map TraceMW.after).reverse := ih hrest
      rw [this]
      simp [TraceMW.toMiddleware, hm, List.append_assoc]

/-- Counterexample to C3 as stated: the claim requires `queryMatch` to be
false whenever a required key is absent from the actual query, but a
constraint requiring the empty string is satisfied by an absent key
(`url.Values.Get` reads a missing key as `""`). -/
theorem queryMatch_absent_key_counterexample :
    queryMatch [("k", "")] ([] : Values) = true ∧
      List.lookup "k" ([] : Values) = none :=
  ⟨rfl, rfl⟩

/-- C3 amended: empty constraints match unconditionally; if every
constrained key appears in the actual query with an equal first value,
`queryMatch` is true; and `queryMatch` is true exactly when every
constrained key's first value — reading an absent key as the empty
string — equals the required value (so an absent key fails its constraint
only when the required value is non-empty). -/
theorem queryMatch_subset_law (C : List (String × String)) (Q : Values) :
    (C = [] → queryMatch C Q = true) ∧
    ((∀ kv ∈ C, ∃ rest, Q.lookup kv.1 = some (kv.2 :: rest)) → queryMatch C Q = true) ∧
    (queryMatch C Q = true ↔ ∀ kv ∈ C, Values.get Q kv.1 = kv.2) := by
  refine ⟨?_, ?_, queryMatch_eq_true_iff C Q⟩
  · rintro rfl
    rfl
  · intro hall
    rw [queryMatch_eq_true_iff]
    intro kv hkv
    obtain ⟨rest, hr⟩ := hall kv hkv
    simp [Values.get, hr]

/-- Witness for C3 (amended): a constraint present in the query with the
required first value matches, with an extra query key ignored. -/
theorem queryMatch_subset_law_witness :
    queryMatch [("status", "shipped")] [("status", ["shipped"]), ("extra", ["1"])] = true :=
  (queryMatch_subset_law [("status", "shipped")]
      [("status", ["shipped"]), ("extra", ["1"])]).2.1
    (by
      intro kv hkv
      simp only [List.mem_singleton] at hkv
      subst hkv
      exact ⟨[], rfl⟩)

/-- Counterexample to C10 as stated: a mapping with an empty-valued key is
not matched by every query lacking that key — another constraint can still
fail. Here `C` maps `"a"` to `""`, the query is empty (so `"a"` is absent),
yet `queryMatch` is false because the `"b"` constraint fails. -/
theorem queryMatch_empty_value_counterexample :
    queryMatch [("a", ""), ("b", "x")] ([] : Values) = false ∧
      ("a", "") ∈ [("a", ""), ("b", "x")] ∧
      List.lookup "a" ([] : Values) = none := by
  refine ⟨rfl, ?_, rfl⟩
  simp

/-- C10 amended: an empty-valued constraint does not require its key to be
present — if every binding of `k` in `C` requires the empty string and `k`
is absent from the query, the `k`-constraints can be dropped without
changing the result (in particular `queryMatch [(k, "")] Q = true` whenever
`k` is absent from `Q`). -/
theorem queryMatch_absent_empty_key (C : List (String × String)) (k : String) (Q : Values)
    (hAllEmpty : ∀ kv ∈ C, kv.1 = k → kv.2 = "")
    (habsent : Q.lookup k = none) :
    queryMatch C Q = queryMatch (C.filter (fun kv => kv.1 != k)) Q := by
  have hget : Values.get Q k = "" := values_get_eq_empty_of_lookup_none Q k habsent
  by_cases hc : ∀ kv ∈ C, Values.get Q kv.1 = kv.2
  · have h1 : queryMatch C Q = true := (queryMatch_eq_true_iff C Q).mpr hc
    have h2 : queryMatch (C.filter (fun kv => kv.1 != k)) Q = true := by
      rw [queryMatch_eq_true_iff]
      intro kv hkv
      exact hc kv (List.mem_of_mem_filter hkv)
    rw [h1, h2]
  · push_neg at hc
    obtain ⟨kv, hkvC, hkvne⟩ := hc
    have hne : kv.1 ≠ k := by
      intro he
      apply hkvne
      rw [he, hget]
      exact (hAllEmpty kv hkvC he).symm
    have h1 : queryMatch C Q = false := by
      cases hq : queryMatch C Q
      · rfl
      · exact absurd ((queryMatch_eq_true_iff C Q).mp hq kv hkvC) hkvne
    have h2 : queryMatch (C.filter (fun kv => kv.1 != k)) Q = false := by
      cases hq : queryMatch (C.filter (fun kv => kv.1 != k)) Q
      · rfl
      · have hmem : kv ∈ C.filter (fun kv => kv.1 != k) := by
          rw [List.mem_filter]
          exact ⟨hkvC, by simp [hne]⟩
        exact absurd ((queryMatch_eq_true_iff _ Q).mp hq kv hmem) hkvne
    rw [h1, h2]

/-- Witness for C10 (amended): dropping the absent empty-valued `"a"`
constraint leaves the match result unchanged. -/
theorem queryMatch_absent_empty_key_witness :
    queryMatch [("a", ""), ("b", "x")] [("b", ["x"])] =
      queryMatch (List.filter (fun kv => kv.1 != "a") [("a", ""), ("b", "x")]) [("b", ["x"])] :=
  queryMatch_absent_empty_key [("a", ""), ("b", "x")] "a" [("b", ["x"])] (by decide) rfl

/-- C1: if an exact route is registered under `uppercase(method) + " " + path`,
`dispatch` resolves the request to that entry's composed handler and the
outcome is independent of the templated-route list — no templated route is
consulted, however many structurally match and in whatever order they were
registered. -/
theorem dispatch_exact_priority {α : Type} (routers : List (String × RouteInfo α))
    (tmpls : List (TemplateRoute α)) (r : Request) (info : RouteInfo α)
    (h : routers.lookup (goToUpper r.method ++ " " ++ r.path) = some info) :
    dispatch { routers := routers, templateRoutes := tmpls } r =
        .served (chainMiddleware info.handler info.middlewares) ∧
      dispatch { routers := routers, templateRoutes := tmpls } r =
        dispatch { routers := routers, templateRoutes := [] } r := by
  constructor <;> simp [dispatch, h]

/-- Witness for C1: an exact `GET /foo` route (handler `1`) wins over a
registered templated route whose segments also match `/foo` (handler `2`). -/
theorem dispatch_exact_priority_witness :
    dispatch (α := Nat)
      { routers := [("GET /foo", { handler := 1, middlewares := [] })],
        templateRoutes := [{ method := "GET", segments := ["foo"], queries := [],
                             info := { handler := 2, middlewares := [] } }] }
      { method := "GET", path := "/foo", query := [] } = .served 1 :=
  (dispatch_exact_priority
      [("GET /foo", { handler := 1, middlewares := [] })]
      [{ method := "GET", segments := ["foo"], queries := [],
         info := { handler := 2, middlewares := [] } }]
      { method := "GET", path := "/foo", query := [] }
      { handler := 1, middlewares := [] } rfl).1

/-- C4: a templated path with `N` segments never matches a request path
whose trimmed-and-split form has a different number of segments, regardless
of how many template segments are parameter placeholders. -/
theorem pathMatch_segment_count (tplSegs : List String) (rawPath : String)
    (h : (splitTrimSlash rawPath).length ≠ tplSegs.length) :
    pathMatch tplSegs rawPath = false := by
  simp [pathMatch, h]

/-- Witness for C4: a two-segment template (even an all-placeholder one)
rejects a three-segment request path. -/
theorem pathMatch_segment_count_witness :
    (splitTrimSlash "/foo/bar/baz").length ≠ ([":a", ":b"] : List String).length ∧
      pathMatch [":a", ":b"] "/foo/bar/baz" = false :=
  ⟨by decide, pathMatch_segment_count [":a", ":b"] "/foo/bar/baz" (by decide)⟩

/-- Positional reading of the segment loop of `pathMatch`: the zipped
`all` holds exactly when at every index the template segment either starts
with `":"` or equals the request segment. -/
theorem zip_all_iff_get (tpl req : List String) (hlen : req.length = tpl.length) :
    ((tpl.zip req).all fun p => hasPrefixB p.1 ":" || p.1 == p.2) = true ↔
      ∀ (i : Nat) (h1 : i < tpl.length) (h2 : i < req.length),
        hasPrefixB (tpl.get ⟨i, h1⟩) ":" = true ∨ tpl.get ⟨i, h1⟩ = req.get ⟨i, h2⟩ := by
  induction tpl generalizing req with
  | nil =>
    cases req with
    | nil => simp
    | cons r rs => simp at hlen
  | cons t ts ih =>
    cases req with
    | nil => simp at hlen
    | cons r rs =>
      have hlen' : rs.length = ts.length := by simpa using hlen
      constructor
      · intro hall i h1 h2
        simp only [List.zip_cons_cons, List.all_cons, Bool.and_eq_true] at hall
        obtain ⟨h0, hrest⟩ := hall
        cases i with
        | zero => simpa [Bool.or_eq_true, beq_iff_eq] using h0
        | succ n =>
          have := (ih rs hlen').mp hrest n (Nat.lt_of_succ_lt_succ h1)
            (Nat.lt_of_succ_lt_succ h2)
          simpa using this
      · intro hidx
        simp only [List.zip_cons_cons, List.all_cons, Bool.and_eq_true]
        constructor
        · have := hidx 0 (Nat.succ_pos _) (Nat.succ_pos _)
          simpa [Bool.or_eq_true, beq_iff_eq] using this
        · refine ((ih rs hlen').mpr ?_)
          intro n hn1 hn2
          have := hidx (n + 1) (Nat.succ_lt_succ hn1) (Nat.succ_lt_succ hn2)
          simpa using this

/-- Counterexample to C5 as stated: a placeholder segment also accepts the
EMPTY request segment. The path `"/"` trims and splits to the single empty
segment `""`, yet the one-placeholder template matches it. -/
theorem pathMatch_empty_segment_counterexample :
    pathMatch [":id"] "/" = true ∧ splitTrimSlash "/" = [""] := by
  decide

/-- C5 amended: `pathMatch` is true exactly when segment counts agree and,
at every position, the template segment either carries the leading `":"`
marker — in which case it matches any request segment unconditionally,
including the empty one — or is a literal equal to the request segment. -/
theorem pathMatch_characterization (tplSegs : List String) (rawPath : String) :
    pathMatch tplSegs rawPath = true ↔
      ((splitTrimSlash rawPath).length = tplSegs.length ∧
        ∀ (i : Nat) (h1 : i < tplSegs.length) (h2 : i < (splitTrimSlash rawPath).length),
          hasPrefixB (tplSegs.get ⟨i, h1⟩) ":" = true ∨
            tplSegs.get ⟨i, h1⟩ = (splitTrimSlash rawPath).get ⟨i, h2⟩) := by
  by_cases hlen : (splitTrimSlash rawPath).length = tplSegs.length
  · have heq : pathMatch tplSegs rawPath =
        ((tplSegs.zip (splitTrimSlash rawPath)).all
          fun p => hasPrefixB p.1 ":" || p.1 == p.2) := by
      simp [pathMatch, hlen]
    rw [heq, zip_all_iff_get tplSegs (splitTrimSlash rawPath) hlen]
    constructor
    · intro h
      exact ⟨hlen, h⟩
    · rintro ⟨_, h⟩
      exact h
  · have hfalse : pathMatch tplSegs rawPath = false := by
      simp [pathMatch, hlen]
    rw [hfalse]
    constructor
    · intro h
      simp at h
    · rintro ⟨h, _⟩
      exact absurd h hlen

theorem string_append_assoc (a b c : String) : a ++ b ++ c = a ++ (b ++ c) := by
  apply String.ext
  simp only [Stubsrv.String.data_append, List.append_assoc]

/-- Counterexample to C6 as stated: the classifier looks for exact keys
ENDING in `" " + path`, not for keys whose path component is the request
path under a different method. With the exact route `GET "/a /foo"` (a
registered path containing a space) and the request `GET /foo`, no route's
path matches the request path under any method — the claim requires 404 —
yet the key `"GET /a /foo"` ends in `" /foo"`, so the code answers 405. -/
theorem dispatch_classify_counterexample :
    dispatch (α := Nat)
        { routers := [("GET /a /foo", { handler := 0, middlewares := [] })],
          templateRoutes := [] }
        { method := "GET", path := "/foo", query := [] } = .methodNotAllowed ∧
      goToUpper "GET" = "GET" ∧ ("/a /foo" : String) ≠ "/foo" := by
  refine ⟨rfl, rfl, by decide⟩

/-- C6 amended: when neither an exact nor a templated route fully matches,
the dispatcher responds 405 exactly when some exact key ends with a space
followed by the request path (for space-free registered paths this is the
same path under a different method), or some templated route's path and
query constraints match the request regardless of its method; it responds
404 otherwise. A request whose path is the path component of some exact
key, or structurally matches some templated route, never receives 404. -/
theorem dispatch_classify_amended {α : Type} (s : Registry α) (r : Request) :
    (s.routers.lookup (goToUpper r.method ++ " " ++ r.path) = none →
      s.templateRoutes.find? (templateMatches r) = none →
      dispatch s r =
        (if s.routers.any (fun kv => hasSuffixB kv.1 (" " ++ r.path)) ||
            s.templateRoutes.any (fun tr =>
              pathMatch tr.segments r.path && queryMatch tr.queries r.query)
         then .methodNotAllowed else .notFound)) ∧
    (∀ (m : String) (info : RouteInfo α),
      (m ++ " " ++ r.path, info) ∈ s.routers → dispatch s r ≠ .notFound) ∧
    (∀ tr ∈ s.templateRoutes, pathMatch tr.segments r.path = true →
      queryMatch tr.queries r.query = true → dispatch s r ≠ .notFound) := by
  refine ⟨?_, ?_, ?_⟩
  · intro h1 h2
    simp [dispatch, h1, h2]
  · intro m info hmem
    have hsuf : hasSuffixB (m ++ " " ++ r.path) (" " ++ r.path) = true := by
      rw [string_append_assoc]
      exact hasSuffixB_append m (" " ++ r.path)
    have hany : s.routers.any (fun kv => hasSuffixB kv.1 (" " ++ r.path)) = true :=
      List.any_eq_true.mpr ⟨(m ++ " " ++ r.path, info), hmem, hsuf⟩
    rcases h1 : s.routers.lookup (goToUpper r.method ++ " " ++ r.path) with _ | info'
    · rcases h2 : s.templateRoutes.find? (templateMatches r) with _ | tr
      · simp [dispatch, h1, h2, hany]
      · simp [dispatch, h1, h2]
    · simp [dispatch, h1]
  · intro tr htr hp hq
    have hany : s.templateRoutes.any (fun tr =>
        pathMatch tr.segments r.path && queryMatch tr.queries r.query) = true :=
      List.any_eq_true.mpr ⟨tr, htr, by simp [hp, hq]⟩
    rcases h1 : s.routers.lookup (goToUpper r.method ++ " " ++ r.path) with _ | info'
    · rcases h2 : s.templateRoutes.find? (templateMatches r) with _ | tr'
      · simp [dispatch, h1, h2, hany]
      · simp [dispatch, h1, h2]
    · simp [dispatch, h1]

/-- Witness for C6 (amended): a `POST /foo` exact route means `GET /foo`
is never classified 404. -/
theorem dispatch_classify_amended_witness :
    dispatch (α := Nat)
        { routers := [("POST /foo", { handler := 7, middlewares := [] })],
          templateRoutes := [] }
        { method := "GET", path := "/foo", query := [] } ≠ .notFound :=
  (dispatch_classify_amended
      { routers := [("POST /foo", { handler := 7, middlewares := [] })],
        templateRoutes := [] }
      { method := "GET", path := "/foo", query := [] }).2.1
    "POST" { handler := 7, middlewares := [] } (List.mem_singleton.mpr rfl)

/-- C7: `Close` is idempotent — a second `Close` leaves the whole state
(including the count of closes of the underlying server) unchanged — and
after any close of a started server the `URL` accessor returns `""`. -/
theorem closeStub_idempotent (s : StubState) :
    closeStub (closeStub s) = closeStub s ∧
      (s.serverStarted = true → urlStub (closeStub s) = "") := by
  cases hs : s.serverStarted <;> cases hc : s.closed <;>
    simp [closeStub, urlStub, hs, hc]

/-- C2: the composed handler runs middleware pre-handler logic in
registration order (first registered outermost) and post-handler logic in
reverse order — for two middlewares the trace is M1-before, M2-before, H,
M2-after, M1-after — and a middleware that does not invoke its next link
prevents every inner middleware and the terminal handler from executing
(the trace contains none of their events, whatever they are). -/
theorem chainMiddleware_order :
    (∀ (h : Trace) (m1 m2 : TraceMW), m1.callsNext = true → m2.callsNext = true →
      chainMiddleware h [m1.toMiddleware, m2.toMiddleware] =
        m1.before :: m2.before :: (h ++ [m2.after, m1.after])) ∧
    (∀ (h : Trace) (mws : List TraceMW), (∀ m ∈ mws, m.callsNext = true) →
      chainMiddleware h (mws.map TraceMW.toMiddleware) =
        mws.map TraceMW.before ++ h ++ (mws.map TraceMW.after).reverse) ∧
    (∀ (h : Trace) (pre post : List TraceMW) (m : TraceMW),
      (∀ m' ∈ pre, m'.callsNext = true) → m.callsNext = false →
      chainMiddleware h ((pre ++ m :: post).map TraceMW.toMiddleware) =
        pre.map TraceMW.before ++ [m.before, m.after] ++ (pre.map TraceMW.after).reverse) := by
  refine ⟨?_, ?_, ?_⟩
  · intro h m1 m2 h1 h2
    have hall : ∀ m ∈ [m1, m2], m.callsNext = true := by
      intro m hm
      simp only [List.mem_cons, List.not_mem_nil, or_false] at hm
      rcases hm with rfl | rfl
      · exact h1
      · exact h2
    have := chain_all_next [m1, m2] h hall
    simpa using this
  · intro h mws hall
    exact chain_all_next mws h hall
  · intro h pre post m hpre hm
    have hinner :
        m.toMiddleware
          (List.foldr (fun mw h => mw h) h (post.map TraceMW.toMiddleware)) =
          [m.before, m.after] := by
      simp [TraceMW.toMiddleware, hm]
    calc chainMiddleware h ((pre ++ m :: post).map TraceMW.toMiddleware)
        = chainMiddleware [m.before, m.after] (pre.map TraceMW.toMiddleware) := by
          simp only [chainMiddleware, List.map_append, List.map_cons,
            List.foldr_append, List.foldr_cons, hinner]
      _ = pre.map TraceMW.before ++ [m.before, m.after] ++
            (pre.map TraceMW.after).reverse := chain_all_next pre [m.before, m.after] hpre

/-- Witness for C2: two pass-through middlewares around handler trace
`["H"]` produce exactly M1-before, M2-before, H, M2-after, M1-after. -/
theorem chainMiddleware_order_witness :
    chainMiddleware ["H"]
        [TraceMW.toMiddleware { before := "M1-before", after := "M1-after", callsNext := true },
         TraceMW.toMiddleware { before := "M2-before", after := "M2-after", callsNext := true }] =
      ["M1-before", "M2-before", "H", "M2-after", "M1-after"] :=
  chainMiddleware_order.1 ["H"]
    { before := "M1-before", after := "M1-after", callsNext := true }
    { before := "M2-before", after := "M2-after", callsNext := true } rfl rfl

/-- C9: the control-plane endpoint rejects a body that does not decode
with a 400-class result and rejects a decoded payload with empty method or
path with a 400-class result, in both cases returning the registry
unchanged; and a well-formed payload with status `0` (the decoding of an
absent status field) registers exactly what the same payload with status
`200` would. -/
theorem controlAddHandler_validation :
    (∀ reg : Registry StubResponse,
      controlAddHandler reg "POST" none = (reg, .invalidJSON)) ∧
    (∀ (reg : Registry StubResponse) (spec : DynamicHandlerSpec),
      spec.method = "" ∨ spec.path = "" →
      controlAddHandler reg "POST" (some spec) = (reg, .missingMethodOrPath)) ∧
    (∀ (reg : Registry StubResponse) (spec : DynamicHandlerSpec), spec.status = 0 →
      controlAddHandler reg "POST" (some spec) =
        controlAddHandler reg "POST" (some { spec with status := 200 })) ∧
    ControlResult.httpStatus .invalidJSON = 400 ∧
    ControlResult.httpStatus .missingMethodOrPath = 400 := by
  refine ⟨?_, ?_, ?_, rfl, rfl⟩
  · intro reg
    rfl
  · intro reg spec h
    rcases h with h | h <;> simp [controlAddHandler, h]
  · intro reg spec h
    simp [controlAddHandler, h]

/-- Witness for C9: an empty method is rejected with the registry
unchanged, and a zero status registers the same route as status 200. -/
theorem controlAddHandler_validation_witness :
    controlAddHandler { routers := [], templateRoutes := [] } "POST"
        (some { method := "", path := "/x", query := [], status := 0,
                body := "", headers := [] }) =
      ({ routers := [], templateRoutes := [] }, .missingMethodOrPath) ∧
    controlAddHandler { routers := [], templateRoutes := [] } "POST"
        (some { method := "GET", path := "/x", query := [], status := 0,
                body := "", headers := [] }) =
      controlAddHandler { routers := [], templateRoutes := [] } "POST"
        (some { method := "GET", path := "/x", query := [], status := 200,
                body := "", headers := [] }) :=
  ⟨controlAddHandler_validation.2.1 { routers := [], templateRoutes := [] }
      { method := "", path := "/x", query := [], status := 0, body := "", headers := [] }
      (Or.inl rfl),
   controlAddHandler_validation.2.2.1 { routers := [], templateRoutes := [] }
      { method := "GET", path := "/x", query := [], status := 0, body := "", headers := [] }
      rfl⟩

/-- C8, evaluated at the failing input: a failed bind reports the bind
error and leaves the server unstarted with an empty base URL — but it also
nils out the mux (`s.mux = nil` in `Start`'s error path), and since this
variant builds the mux once in `NewStub`, a subsequent successful `Start`
runs with a nil handler: the retried server does NOT serve the stub's
dispatcher, unlike a fresh start, contradicting the claimed
as-if-never-failed retry. -/
theorem start_bind_failure_breaks_retry :
    (startStub newStubState none).2 = some .bindFailure ∧
    (startStub newStubState none).1.serverStarted = false ∧
    (startStub newStubState none).1.baseURL = "" ∧
    (startStub newStubState none).1.muxPresent = false ∧
    (startStub (startStub newStubState none).1 (some "http://127.0.0.1:12345")).2 = none ∧
    (startStub (startStub newStubState none).1
        (some "http://127.0.0.1:12345")).1.servingDispatcher = false ∧
    (startStub newStubState (some "http://127.0.0.1:12345")).1.servingDispatcher = true := by
  decide

/-- Witness for C7 at a concrete started server state. -/
theorem closeStub_idempotent_witness :
    closeStub (closeStub
        { serverStarted := true, closed := false, baseURL := "http://127.0.0.1:8008",
          muxPresent := true, servingDispatcher := true, serverCloseCount := 0 }) =
      closeStub
        { serverStarted := true, closed := false, baseURL := "http://127.0.0.1:8008",
          muxPresent := true, servingDispatcher := true, serverCloseCount := 0 } ∧
    urlStub (closeStub
        { serverStarted := true, closed := false, baseURL := "http://127.0.0.1:8008",
          muxPresent := true, servingDispatcher := true, serverCloseCount := 0 }) = "" :=
  ⟨(closeStub_idempotent _).1, (closeStub_idempotent _).2 rfl⟩

end Stubsrv
